import Mathlib

/-
Verification of the proxy/error-resolution utilities of the
stay-safe-api-gateway repository (src/utils/requests.js), as a shallow
embedding in Lean 4.  HTTP effects (res.status(..).json(..), logger.error)
are modelled by returning the written response together with the list of
log entries recorded before it; JavaScript truthiness of the values the
code actually tests (a numeric statusCode, a string uri) is made explicit.
-/

namespace StaySafe

/-- JSON-like JavaScript values, the shape of request/response bodies and
error payloads flowing through the gateway. -/
inductive JVal : Type where
  | null : JVal
  | str : String → JVal
  | num : Int → JVal
  | bool : Bool → JVal
  | arr : List JVal → JVal
  | obj : List (String × JVal) → JVal
deriving Repr

/-- A record produced by `logger.error(message, { req, stack })` in
src/utils/requests.js line 35: the formatted message and the stack trace. -/
structure LogEntry where
  message : String
  stack : String
deriving Repr, DecidableEq

/-- The failure value reaching `resolveError` (src/utils/requests.js line 22).
`apiError` models an instance of the ApiError class.  Modelled from the spec:
src/error/api-error.js is not under src/; per the spec a domain error carries
an explicit HTTP status code and a JSON-serializable payload (what `toJSON()`
returns).  `plain` is any other JavaScript error object: its `statusCode`
property may be absent/null (`none`) or a number, its `error` property (the
attached upstream payload) may be absent (`none`), and it has `message` and
`stack` strings. -/
inductive JsError : Type where
  | apiError (statusCode : Int) (payload : JVal)
  | plain (statusCode : Option Int) ( error : Option JVal)
      (message : String) (stack : String)
deriving Repr

/-- The fully-resolved options record used inside `resolveError`, with the
defaults of src/utils/requests.js lines 23-27. -/
structure ResolveErrorOptions where
  unknownErrorMessage : String := "Internal Server Error"
  log : Bool := false
  displayErrorReason : Bool := false
deriving Repr, DecidableEq

/-- The caller-supplied options object: each recognized property may be
present (`some`) or absent (`none`). -/
structure ResolveErrorOptionsArg where
  unknownErrorMessage : Option String := none
  log : Option Bool := none
  displayErrorReason : Option Bool := none
deriving Repr

/-- The `_.extend({defaults}, options || {})` step of src/utils/requests.js
lines 23-27: a missing options argument behaves as the empty object, and each
property present in the argument overrides its default independently. -/
def extendOptions (options : Option ResolveErrorOptionsArg) : ResolveErrorOptions :=
  let o := options.getD {}
  { unknownErrorMessage := o.unknownErrorMessage.getD "Internal Server Error",
    log := o.log.getD false,
    displayErrorReason := o.displayErrorReason.getD false }

/-- What `res.status(s).json(b)` writes back to the caller.  `body = none`
models `res.json(undefined)` (no JSON payload). -/
structure HttpResponse where
  status : Int
  body : Option JVal
deriving Repr

/-- JavaScript truthiness of the `err.statusCode` test on line 31: an
absent/null property is falsy, a number is truthy iff it is nonzero. -/
def numTruthy : Option Int → Bool
  | none => false
  | some n => n != 0

/-- The unclassified-failure branch of `resolveError`
(src/utils/requests.js lines 33-39): optionally log
`unknownErrorMessage. Reason: err.message` with the stack, then respond
500 with a `{ message: ... }` body, appending the reason exactly when
`displayErrorReason` is set.  The log entry list is recorded before the
response is written. -/
def unknownErrorResponse (opts : ResolveErrorOptions) (message stack : String) :
    HttpResponse × List LogEntry :=
  let logs : List LogEntry :=
    if opts.log then [⟨opts.unknownErrorMessage ++ ". Reason: " ++ message, stack⟩]
    else []
  let errorMessage :=
    if opts.displayErrorReason then opts.unknownErrorMessage ++ ". Reason: " ++ message
    else opts.unknownErrorMessage
  (⟨500, some (.obj [("message", .str errorMessage)])⟩, logs)

/-- `resolveError(err, req, res, options)` of src/utils/requests.js
lines 22-40, returning the response written and the log entries recorded.
An ApiError is relayed with its own status and `toJSON()` payload; otherwise
a truthy (nonzero, present) `statusCode` is relayed with the attached
`err.error` payload; otherwise the unclassified 500 path runs. -/
def resolveError (err : JsError) (options : Option ResolveErrorOptionsArg) :
    HttpResponse × List LogEntry :=
  let opts := extendOptions options
  match err with
  | .apiError statusCode payload => (⟨statusCode, some payload⟩, [])
  | .plain (some statusCode) errPayload message stack =>
      if statusCode ≠ 0 then (⟨statusCode, errPayload⟩, [])
      else unknownErrorResponse opts message stack
  | .plain none _ message stack => unknownErrorResponse opts message stack

/-- `developmentErrorHandler` (src/utils/requests.js lines 61-63): resolves
with `{ log: true, displayErrorReason: true }` (the extra `req` key it also
passes is not a recognized option and has no effect). -/
def developmentErrorHandler (err : JsError) : HttpResponse × List LogEntry :=
  resolveError err (some { log := some true, displayErrorReason := some true })

/-- `productionErrorHandler` (src/utils/requests.js lines 65-67): resolves
with `{ log: true }` only. -/
def productionErrorHandler (err : JsError) : HttpResponse × List LogEntry :=
  resolveError err (some { log := some true })

/-- `defaultErrorHandler(environment)` (src/utils/requests.js lines 54-59):
the environment name "localhost" selects the development handler, every
other name selects the production handler. -/
def defaultErrorHandler (environment : String) : JsError → HttpResponse × List LogEntry :=
  if environment = "localhost" then developmentErrorHandler
  else productionErrorHandler

/-- An inbound Express request as `defaultTargetOptions` reads it
(src/utils/requests.js lines 86-94): method, original URL (path plus query
string), the pre-filtered `passedHeaders` set, body and parsed query. -/
structure Request where
  method : String
  originalUrl : String
  passedHeaders : List (String × String)
  body : JVal
  query : List (String × String)
deriving Repr

/-- The proxied-request descriptor handed to the outbound client: the
object literal built on src/utils/requests.js lines 87-93. -/
structure TargetOptions where
  method : String
  uri : String
  headers : List (String × String)
  body : JVal
  qs : List (String × String)
deriving Repr

/-- JavaScript `a || b` on a possibly-absent string `a` (line 89,
`uri || req.originalUrl`): an absent or empty string is falsy and yields
the fallback. -/
def jsOrString (a : Option String) (b : String) : String :=
  match a with
  | some s => if s = "" then b else s
  | none => b

/-- `defaultTargetOptions(req, uri)` (src/utils/requests.js lines 86-94). -/
def defaultTargetOptions (req : Request) (uri : Option String) : TargetOptions :=
  { method := req.method,
    uri := jsOrString uri req.originalUrl,
    headers := req.passedHeaders,
    body := req.body,
    qs := req.query }

/-- The backend's response to the outbound call: a status code and a parsed
JSON body (`json: true` on the base request). -/
structure BackendResponse where
  statusCode : Int
  body : JVal
deriving Repr

/-- What the handler returned by `defaultProxyRequest` does with the inbound
request: either it writes a response itself (`res.status(..).json(..)`,
line 106) or it hands the failure to `next` (line 108) for the centralized
error handler. -/
inductive ProxyOutcome : Type where
  | respond (status : Int) (body : JVal)
  | nextErr (err : JsError)
deriving Repr

/-- `resolveDefault(requestPromise, res)` (src/utils/requests.js lines
75-79): on a fulfilled promise, write the backend status and body; a
rejected promise propagates unchanged. -/
def resolveDefault (requestPromise : Except JsError BackendResponse) :
    Except JsError HttpResponse :=
  requestPromise.map (fun response => ⟨response.statusCode, some response.body⟩)

/-- The handler produced by `defaultProxyRequest(baseRequest, uri)`
(src/utils/requests.js lines 101-111): build the descriptor, await the
single outbound call, and either relay the backend status and body or pass
the caught failure to `next`. -/
def defaultProxyRequest (baseRequest : TargetOptions → Except JsError BackendResponse)
    (uri : Option String) (req : Request) : ProxyOutcome :=
  match baseRequest (defaultTargetOptions req uri) with
  | .ok response => .respond response.statusCode response.body
  | .error err => .nextErr err

/-- A concrete inbound request, used to instantiate universally quantified
theorems at an explicit input. -/
def sampleReq : Request :=
  { method := "GET",
    originalUrl := "/tags",
    passedHeaders := [("authorization", "Bearer t")],
    body := JVal.null,
    query := [("q", "1")] }

/-- A concrete backend body, the spec's scenario payload. -/
def sampleBody : JVal := JVal.obj [("tags", JVal.arr [JVal.str "a", JVal.str "b"])]

/-- A concrete outbound client that always succeeds with 200 and
`sampleBody`. -/
def okBackend : TargetOptions → Except JsError BackendResponse :=
  fun _ => Except.ok ⟨200, sampleBody⟩

/-- A concrete failure with no status code, as thrown by a refused
connection. -/
def connRefused : JsError := JsError.plain none none "ECONNREFUSED" "stacktrace"

/-- A concrete outbound client that always fails with `connRefused`. -/
def failBackend : TargetOptions → Except JsError BackendResponse :=
  fun _ => Except.error connRefused

/-- C1: whenever the backend answers the built descriptor with status S and
body B, the handler produced by `defaultProxyRequest` writes exactly status
S and body B to the caller, and `resolveDefault` relays a fulfilled
response the same way; neither transforms status or body. -/
theorem c1_backend_pass_through
    (baseRequest : TargetOptions → Except JsError BackendResponse)
    (uri : Option String) (req : Request) (S : Int) (B : JVal)
    (h : baseRequest (defaultTargetOptions req uri) = Except.ok ⟨S, B⟩) :
    defaultProxyRequest baseRequest uri req = ProxyOutcome.respond S B ∧
    resolveDefault (Except.ok ⟨S, B⟩) = Except.ok ⟨S, some B⟩ := by
  constructor
  · unfold defaultProxyRequest
    rw [h]
  · rfl

/-- C1 witness: the pass-through theorem applied to a concrete backend
response `200 sampleBody`. -/
theorem c1_backend_pass_through_witness :
    defaultProxyRequest okBackend none sampleReq = ProxyOutcome.respond 200 sampleBody ∧
    resolveDefault (Except.ok ⟨200, sampleBody⟩) = Except.ok ⟨200, some sampleBody⟩ :=
  c1_backend_pass_through okBackend none sampleReq 200 sampleBody rfl

/-- C2: a domain error (ApiError) with status code C and JSON payload P is
relayed by `resolveError` as status C with body P verbatim, and nothing is
logged, whatever options object (or none) is in effect. -/
theorem c2_api_error_verbatim (c : Int) (payload : JVal)
    (options : Option ResolveErrorOptionsArg) :
    resolveError (JsError.apiError c payload) options = (⟨c, some payload⟩, []) := rfl

/-- C4: a failure that is not an ApiError but carries a (truthy, i.e.
nonzero) status code is relayed with that status and its attached
`err.error` payload untransformed, with nothing logged, for every options
object. -/
theorem c4_upstream_error_relayed (c : Int) (errPayload : Option JVal)
    (message stack : String) (options : Option ResolveErrorOptionsArg)
    (h : c ≠ 0) :
    resolveError (JsError.plain (some c) errPayload message stack) options
      = (⟨c, errPayload⟩, []) := by
  simp [resolveError, h]

/-- C4 witness: a 502 upstream failure with an attached payload is relayed
as 502 with that payload. -/
theorem c4_upstream_error_relayed_witness :
    resolveError (JsError.plain (some 502) (some (JVal.str "bad gateway")) "m" "s") none
      = (⟨502, some (JVal.str "bad gateway")⟩, []) :=
  c4_upstream_error_relayed 502 (some (JVal.str "bad gateway")) "m" "s" none (by decide)

/-- C9: a non-ApiError failure with a truthy status code but no attached
`err.error` payload still takes the upstream branch: the response has that
status code and an undefined (absent) JSON body, not the 500 unclassified
shape. -/
theorem c9_missing_payload_upstream_branch (c : Int) (message stack : String)
    (options : Option ResolveErrorOptionsArg) (h : c ≠ 0) :
    resolveError (JsError.plain (some c) none message stack) options
      = (⟨c, none⟩, []) := by
  simp [resolveError, h]

/-- C9 witness: a payloadless 404 failure is answered with 404 and no body,
not with 500. -/
theorem c9_missing_payload_upstream_branch_witness :
    resolveError (JsError.plain (some 404) none "not found" "s") none
      = (⟨404, none⟩, []) :=
  c9_missing_payload_upstream_branch 404 "not found" "s" none (by decide)

/-- C10: classification is by JavaScript truthiness of `statusCode`, not by
its presence: a non-ApiError failure whose statusCode is absent or the
number 0 runs the unclassified path and gets status 500, for every payload,
message, stack and options. -/
theorem c10_falsy_status_unclassified (errPayload : Option JVal)
    (message stack : String) (options : Option ResolveErrorOptionsArg) :
    resolveError (JsError.plain none errPayload message stack) options
        = unknownErrorResponse (extendOptions options) message stack ∧
    resolveError (JsError.plain (some 0) errPayload message stack) options
        = unknownErrorResponse (extendOptions options) message stack ∧
    (unknownErrorResponse (extendOptions options) message stack).1.status = 500 := by
  refine ⟨rfl, by simp [resolveError], rfl⟩

/-- C3: an unclassified failure (not an ApiError, statusCode falsy) is
answered with status 500 and a `{ message: ... }` body built from the
configured generic message, with the failure's reason appended exactly when
`displayErrorReason` is set; and exactly when `log` is set, the generic
message, the reason and the stack are recorded before responding. -/
theorem c3_unclassified_500 (options : Option ResolveErrorOptionsArg)
    (statusCode : Option Int) (errPayload : Option JVal) (message stack : String)
    (h : numTruthy statusCode = false) :
    resolveError (JsError.plain statusCode errPayload message stack) options
      = (⟨500, some (JVal.obj [("message", JVal.str
            (if (extendOptions options).displayErrorReason
             then (extendOptions options).unknownErrorMessage ++ ". Reason: " ++ message
             else (extendOptions options).unknownErrorMessage))])⟩,
         if (extendOptions options).log
         then [⟨(extendOptions options).unknownErrorMessage ++ ". Reason: " ++ message, stack⟩]
         else []) := by
  cases statusCode with
  | none => rfl
  | some c =>
      have hc : c = 0 := by simpa [numTruthy] using h
      subst hc
      simp [resolveError, unknownErrorResponse]

/-- C3 witness: the spec's verbose-profile scenario, a connection-refused
failure under log and displayErrorReason, yields the annotated 500 response
and the log entry. -/
theorem c3_unclassified_500_witness :
    resolveError (JsError.plain none none "ECONNREFUSED" "stacktrace")
        (some { log := some true, displayErrorReason := some true })
      = (⟨500, some (JVal.obj [("message",
            JVal.str "Internal Server Error. Reason: ECONNREFUSED")])⟩,
         [⟨"Internal Server Error. Reason: ECONNREFUSED", "stacktrace"⟩]) :=
  c3_unclassified_500 (some { log := some true, displayErrorReason := some true })
    none none "ECONNREFUSED" "stacktrace" rfl

/-- C5 counterexample: the claim says a supplied override URI replaces the
target URI, but `uri || req.originalUrl` treats the supplied empty string as
absent: with override `""` the descriptor's uri is the original "/tags",
not `""`. -/
theorem c5_empty_override_counterexample :
    (defaultTargetOptions sampleReq (some "")).uri ≠ "" ∧
    (defaultTargetOptions sampleReq (some "")).uri = "/tags" := by
  constructor
  · decide
  · rfl

/-- C5 (amended): with no override the descriptor's uri is the original
path+query; a nonempty override replaces the uri; an empty-string override
is treated as absent and the original path+query is used; in every case
method, headers, body and query parameters are copied from the inbound
request unchanged. -/
theorem c5_target_options (req : Request) (u : String) (h : u ≠ "") :
    defaultTargetOptions req none
      = ⟨req.method, req.originalUrl, req.passedHeaders, req.body, req.query⟩ ∧
    defaultTargetOptions req (some u)
      = ⟨req.method, u, req.passedHeaders, req.body, req.query⟩ ∧
    defaultTargetOptions req (some "")
      = ⟨req.method, req.originalUrl, req.passedHeaders, req.body, req.query⟩ := by
  refine ⟨rfl, ?_, rfl⟩
  simp [defaultTargetOptions, jsOrString, h]

/-- C5 witness: the amended theorem at the concrete sample request with the
nonempty override "/v2/tags". -/
theorem c5_target_options_witness :
    defaultTargetOptions sampleReq none
      = ⟨"GET", "/tags", [("authorization", "Bearer t")], JVal.null, [("q", "1")]⟩ ∧
    defaultTargetOptions sampleReq (some "/v2/tags")
      = ⟨"GET", "/v2/tags", [("authorization", "Bearer t")], JVal.null, [("q", "1")]⟩ ∧
    defaultTargetOptions sampleReq (some "")
      = ⟨"GET", "/tags", [("authorization", "Bearer t")], JVal.null, [("q", "1")]⟩ :=
  c5_target_options sampleReq "/v2/tags" (by decide)

/-- C6: profile selection depends only on the configured environment name:
the handler is the development (verbose) one exactly for "localhost" and
the production (terse) one for every other name; on an unclassified failure
the verbose profile logs and appends the reason to the 500 response, the
terse profile logs the same entry but omits the reason from the response. -/
theorem c6_environment_selects_profile (environment message stack : String) :
    (defaultErrorHandler environment
        = if environment = "localhost" then developmentErrorHandler
          else productionErrorHandler) ∧
    (defaultErrorHandler environment = developmentErrorHandler
        ↔ environment = "localhost") ∧
    developmentErrorHandler (JsError.plain none none message stack)
      = (⟨500, some (JVal.obj [("message",
            JVal.str ("Internal Server Error. Reason: " ++ message))])⟩,
         [⟨"Internal Server Error. Reason: " ++ message, stack⟩]) ∧
    productionErrorHandler (JsError.plain none none message stack)
      = (⟨500, some (JVal.obj [("message", JVal.str "Internal Server Error")])⟩,
         [⟨"Internal Server Error. Reason: " ++ message, stack⟩]) := by
  refine ⟨rfl, ⟨?_, ?_⟩, rfl, rfl⟩
  · intro h
    by_contra henv
    unfold defaultErrorHandler at h
    rw [if_neg henv] at h
    have h3 := congrFun h (JsError.plain none none "" "")
    simp [productionErrorHandler, developmentErrorHandler, resolveError,
      unknownErrorResponse, extendOptions] at h3
  · intro henv
    subst henv
    rfl

/-- C7: the three recognized options are independently defaulted: resolving
with any partial options object behaves exactly as resolving with the same
object in which every omitted field is filled with its default
(unknownErrorMessage = "Internal Server Error", log = false,
displayErrorReason = false), and a missing options argument behaves as
supplying all three defaults. -/
theorem c7_independent_option_defaults (o : ResolveErrorOptionsArg) (err : JsError) :
    resolveError err (some o)
      = resolveError err (some
          { unknownErrorMessage := some (o.unknownErrorMessage.getD "Internal Server Error"),
            log := some (o.log.getD false),
            displayErrorReason := some (o.displayErrorReason.getD false) }) ∧
    resolveError err none
      = resolveError err (some
          { unknownErrorMessage := some "Internal Server Error",
            log := some false,
            displayErrorReason := some false }) := ⟨rfl, rfl⟩

/-- C8: when the single outbound call fails, the handler never writes a
response itself: it hands the failure object unchanged to `next` (the
centralized resolver), and the outcome depends only on the one outbound
call made on the one built descriptor — any outbound client agreeing there
produces the same outcome, so the request is never re-issued. -/
theorem c8_failure_propagation
    (b1 b2 : TargetOptions → Except JsError BackendResponse)
    (uri : Option String) (req : Request) (err : JsError)
    (h : b1 (defaultTargetOptions req uri) = Except.error err)
    (hagree : b1 (defaultTargetOptions req uri) = b2 (defaultTargetOptions req uri)) :
    defaultProxyRequest b1 uri req = ProxyOutcome.nextErr err ∧
    (∀ S B, defaultProxyRequest b1 uri req ≠ ProxyOutcome.respond S B) ∧
    defaultProxyRequest b1 uri req = defaultProxyRequest b2 uri req := by
  have h1 : defaultProxyRequest b1 uri req = ProxyOutcome.nextErr err := by
    unfold defaultProxyRequest
    rw [h]
  have h2 : defaultProxyRequest b2 uri req = ProxyOutcome.nextErr err := by
    unfold defaultProxyRequest
    rw [← hagree, h]
  refine ⟨h1, ?_, h1.trans h2.symm⟩
  intro S B hcon
  rw [h1] at hcon
  exact ProxyOutcome.noConfusion hcon

/-- C8 witness: the propagation theorem at a concrete always-failing
backend client and the sample request. -/
theorem c8_failure_propagation_witness :
    failBackend (defaultTargetOptions sampleReq none) = Except.error connRefused ∧
    defaultProxyRequest failBackend none sampleReq = ProxyOutcome.nextErr connRefused :=
  ⟨rfl, (c8_failure_propagation failBackend failBackend none sampleReq connRefused
    rfl rfl).1⟩

end StaySafe
